import Mathlib

/-!
# Verification of the WhatsApp conversational agent core

A shallow embedding, in Lean 4, of the core of the `bunElisyaAgent` repository:
the webhook ingestion service (`src/services/webhookService.ts`), the
conversational agent (`src/agents/whatsappAgent.ts`), the memory layer
(`src/agents/memory.ts`, `src/database/repositories.ts`, `src/database/schema.ts`)
and the tool registry (`src/agents/tools.ts`).

Conventions of the embedding:
* JavaScript strings are Lean `String`s; the JS string operations used by the
  code (`toLowerCase`, `trim`, `includes`, `startsWith`) are modelled on ASCII
  character lists (`jsToLower`, `jsTrim`, `jsIncludes`).
* Fallible/async operations are modelled with `Except String`; a thrown JS
  exception is `Except.error`, `try/catch` is a `match` on the result.
* The PostgreSQL database is an explicit record of rows (`Db`); the driver-level
  `executeQuery` either reaches the database (`Env.dbConn = true`) or throws a
  connection error.  `NOW()` timestamps on rows are modelled by a logical clock;
  wall-clock string formatting, JSON-escaping inside log strings, UUID
  generation (modelled by a counter) and floating-point printing for
  non-integral results are abstracted, none of which the verified claims
  observe.
* External collaborators (OpenAI completion, the system clock string,
  `Math.random`) are inputs in an environment record `Env`, so theorems can
  quantify over every behaviour of the collaborator.
-/

namespace BunElisya

/-! ## JavaScript string primitives -/

/-- JS whitespace characters relevant to `String.prototype.trim` and `\s`
(the ASCII ones; the inputs of this system are ASCII). -/
def jsIsSpace (c : Char) : Bool :=
  c = ' ' || c = '\t' || c = '\n' || c = '\r'

/-- ASCII lower-casing of a character, as `toLowerCase` acts on ASCII. -/
def jsCharLower (c : Char) : Char :=
  if 'A' ≤ c && c ≤ 'Z' then Char.ofNat (c.toNat + 32) else c

/-- Model of `String.prototype.toLowerCase`, restricted to ASCII case mapping. -/
def jsToLower (s : String) : String :=
  ⟨s.data.map jsCharLower⟩

/-- Trim JS whitespace from both ends of a character list. -/
def jsTrimList (l : List Char) : List Char :=
  ((l.dropWhile jsIsSpace).reverse.dropWhile jsIsSpace).reverse

/-- Model of `String.prototype.trim`. -/
def jsTrim (s : String) : String :=
  ⟨jsTrimList s.data⟩

/-- Does `hay` contain `needle` as a contiguous sublist? -/
def listContains (needle : List Char) : List Char → Bool
  | [] => needle.isEmpty
  | c :: t => needle.isPrefixOf (c :: t) || listContains needle t

/-- Model of `String.prototype.includes`. -/
def jsIncludes (s sub : String) : Bool :=
  listContains sub.data s.data

/-- Model of `String.prototype.startsWith`. -/
def jsStartsWith (s pre : String) : Bool :=
  pre.data.isPrefixOf s.data

/-! ## JSON values (webhook payloads are untyped `any` in the source) -/

/-- A JSON-ish value as delivered to the webhook handler.  `jnull` also stands
for JS `undefined` (the two are indistinguishable through the truthiness and
strict-string-equality tests the validation code performs). -/
inductive Json where
  | jnull : Json
  | jbool : Bool → Json
  | jnum : Int → Json
  | jstr : String → Json
  | jarr : List Json → Json
  | jobj : List (String × Json) → Json

/-- Property access `x[k]`; a missing key or a non-object receiver gives
`undefined` (`jnull`). -/
def jsGet : Json → String → Json
  | .jobj fields, k =>
    match fields.find? (fun p => p.1 == k) with
    | some p => p.2
    | none => .jnull
  | _, _ => .jnull

/-- JS truthiness. -/
def jsTruthy : Json → Bool
  | .jnull => false
  | .jbool b => b
  | .jnum n => n != 0
  | .jstr s => s != ""
  | .jarr _ => true
  | .jobj _ => true

/-- Model of `typeof x === 'object' && x` — a truthy object (object or array). -/
def isObjectLike : Json → Bool
  | .jarr _ => true
  | .jobj _ => true
  | _ => false

/-- Strict equality `x === s` against a string literal. -/
def isStr (j : Json) (s : String) : Bool :=
  match j with
  | .jstr t => t == s
  | _ => false

/-- Model of `Array.isArray x` together with the array itself. -/
def asArray : Json → Option (List Json)
  | .jarr l => some l
  | _ => none

/-! ## WebhookService (`src/services/webhookService.ts`) -/

/-- Result record of `processWebhookPayload`; optional TS fields are `Option`s
left `none` when the source does not set them. -/
structure WebhookProcessingResult where
  success : Bool
  eventType : Option String := none
  message : Option Json := none
  error : Option String := none
  shouldRespond : Option Bool := none

/-- Model of `WebhookService.verifyWebhook`.  `this.verifyToken` (from config) is the
first argument.  The result is the challenge on success and `none` (JS `null`,
mapped by the route to a 403) on any failed check. -/
def verifyWebhook (verifyToken mode token challenge : String) : Option String :=
  if mode ≠ "subscribe" then none
  else if token ≠ verifyToken then none
  else if challenge = "" then none
  else some challenge

/-- Inner loop of `validateWebhookPayload` over `entry.changes`. -/
def validateChanges : List Json → Option String
  | [] => none
  | change :: rest =>
    if !(isStr (jsGet change "field") "messages") then validateChanges rest
    else
      let v := jsGet change "value"
      if !(jsTruthy v) || !(jsTruthy (jsGet v "messaging_product"))
          || !(isStr (jsGet v "messaging_product") "whatsapp") then
        some "Valor de cambio inválido"
      else validateChanges rest

/-- Loop of `validateWebhookPayload` over `payload.entry`. -/
def validateEntries : List Json → Option String
  | [] => none
  | entry :: rest =>
    if !(jsTruthy (jsGet entry "id")) || !(jsTruthy (jsGet entry "changes"))
        || (asArray (jsGet entry "changes")).isNone then
      some "Entrada inválida: faltan campos requeridos"
    else
      match validateChanges ((asArray (jsGet entry "changes")).getD []) with
      | some e => some e
      | none => validateEntries rest

/-- Model of `WebhookService.validateWebhookPayload`: `none` when valid, `some err`
with the diagnostic string otherwise. -/
def validateWebhookPayload (payload : Json) : Option String :=
  if !(jsTruthy payload) || !(isObjectLike payload) then
    some "Payload inválido o vacío"
  else if !(isStr (jsGet payload "object") "whatsapp_business_account") then
    some "Object debe ser whatsapp_business_account"
  else
    match asArray (jsGet payload "entry") with
    | none => some "Entry debe ser un array no vacío"
    | some entries =>
      if entries.isEmpty then some "Entry debe ser un array no vacío"
      else validateEntries entries

/-- Model of `WebhookService.determineEventType` (switch on `message.type`, default
branch falls back to `'text'`). -/
def determineEventType (m : Json) : String :=
  match jsGet m "type" with
  | .jstr "text" => "text"
  | .jstr "image" => "image"
  | .jstr "video" => "video"
  | .jstr "audio" => "audio"
  | .jstr "document" => "document"
  | .jstr "location" => "location"
  | .jstr "contact" => "contact"
  | _ => "text"

/-- Model of `supportedTypes.includes(message.type)` — strict equality against the
seven supported type strings. -/
def isSupportedType (j : Json) : Bool :=
  isStr j "text" || isStr j "image" || isStr j "video" || isStr j "audio"
    || isStr j "document" || isStr j "location" || isStr j "contact"

/-- Model of `WebhookService.isProcessableMessage`. -/
def isProcessableMessage (m : Json) : Bool :=
  jsTruthy (jsGet m "from") && isSupportedType (jsGet m "type")

/-- The guard `!textMessage.text?.body?.trim()` on text messages: true when
the body is absent, not a string (a thrown `TypeError` on `.trim` is caught by
the surrounding catch and yields the same skip) or whitespace-only. -/
def textBodyBlank (m : Json) : Bool :=
  match jsGet (jsGet m "text") "body" with
  | .jstr s => jsTrim s == ""
  | _ => true

/-- Model of `WebhookService.shouldAutoRespond`. -/
def shouldAutoRespond (m : Json) : Bool :=
  isStr (jsGet m "type") "text" || isStr (jsGet m "type") "audio"

/-- Model of `WebhookService.processIncomingMessage`: `none` when the message is
ignored. -/
def processIncomingMessage (m : Json) : Option WebhookProcessingResult :=
  let eventType := determineEventType m
  if !(isProcessableMessage m) then none
  else if isStr (jsGet m "type") "text" && textBodyBlank m then none
  else
    some { success := true
           eventType := some eventType
           message := some m
           shouldRespond := some (shouldAutoRespond m) }

/-- Loop over one change's `messages` array. -/
def processMessagesList : List Json → Option WebhookProcessingResult
  | [] => none
  | msg :: rest =>
    match processIncomingMessage msg with
    | some r => some r
    | none => processMessagesList rest

/-- Loop of `processWebhookEntry` over `entry.changes`.  A `messages` change
whose `value.messages` is missing, not an array or empty is skipped
(`messages && messages.length > 0`). -/
def processChangesList : List Json → Option WebhookProcessingResult
  | [] => none
  | change :: rest =>
    if !(isStr (jsGet change "field") "messages") then processChangesList rest
    else
      match asArray (jsGet (jsGet change "value") "messages") with
      | some (msg :: msgs) =>
        match processMessagesList (msg :: msgs) with
        | some r => some r
        | none => processChangesList rest
      | _ => processChangesList rest

/-- Model of `WebhookService.processWebhookEntry`. -/
def processWebhookEntry (entry : Json) : Option WebhookProcessingResult :=
  processChangesList ((asArray (jsGet entry "changes")).getD [])

/-- Loop of `processWebhookPayload` over the entries. -/
def processEntriesList : List Json → Option WebhookProcessingResult
  | [] => none
  | e :: rest =>
    match processWebhookEntry e with
    | some r => some r
    | none => processEntriesList rest

/-- Model of `WebhookService.processWebhookPayload`.  The source wraps the body in
`try/catch`; the embedding is a total function, so the only outcomes are the
returned records (the no-throw guarantee of the claim is the totality of this
definition). -/
def processWebhookPayload (payload : Json) : WebhookProcessingResult :=
  match validateWebhookPayload payload with
  | some err => { success := false, error := some err }
  | none =>
    match processEntriesList ((asArray (jsGet payload "entry")).getD []) with
    | some r => r
    | none => { success := true, shouldRespond := some false }

/-! ## Arithmetic evaluation for the calculator tool

`CalculatorTool.safeEval` hands the sanitized expression to the JS engine
(`new Function('return ' + sanitized)()`).  The engine's arithmetic on the
restricted character set `[0-9+\-*/().\s]` is modelled by a recursive-descent
evaluator over exact rationals; a division whose JS value would be non-finite
(`Infinity`/`NaN`, which `safeEval` maps to `null`) is evaluated to `none`, as
is any expression the engine would reject as a syntax error. -/

/-- Digits to a natural number. -/
def digitsToNat (ds : List Char) : Nat :=
  ds.foldl (fun a c => a * 10 + (c.toNat - 48)) 0

/-- A JS number value arising from evaluating a restricted arithmetic
expression, kept as an unreduced fraction (numerator, positive denominator)
so that all arithmetic is by primitive `Int`/`Nat` operations.  This is exact
rational arithmetic — the JS engine's doubles agree with it on the small
integral results the verified runs produce. -/
structure JsNum where
  num : Int
  den : Nat
deriving Repr, DecidableEq

def JsNum.add (a b : JsNum) : JsNum :=
  ⟨a.num * b.den + b.num * a.den, a.den * b.den⟩

def JsNum.sub (a b : JsNum) : JsNum :=
  ⟨a.num * b.den - b.num * a.den, a.den * b.den⟩

def JsNum.mul (a b : JsNum) : JsNum :=
  ⟨a.num * b.num, a.den * b.den⟩

def JsNum.neg (a : JsNum) : JsNum :=
  ⟨-a.num, a.den⟩

/-- Model of `a / b` for `b ≠ 0`: `(a.num * b.den) / (a.den * b.num)`, with the sign
moved into the numerator to keep the denominator positive. -/
def JsNum.div (a b : JsNum) : JsNum :=
  ⟨a.num * b.den * (if b.num < 0 then -1 else 1), a.den * b.num.natAbs⟩

/-- Parse a JS numeric literal (`digits`, `digits.`, `digits.digits`,
`.digits`). -/
def parseNumber (ts : List Char) : Option (JsNum × List Char) :=
  let ip := ts.span (fun c => c.isDigit)
  match ip.2 with
  | '.' :: r2 =>
    let fp := r2.span (fun c => c.isDigit)
    if ip.1.isEmpty && fp.1.isEmpty then none
    else some (⟨(digitsToNat ip.1 * 10 ^ fp.1.length + digitsToNat fp.1 : Nat), 10 ^ fp.1.length⟩, fp.2)
  | _ => if ip.1.isEmpty then none else some (⟨(digitsToNat ip.1 : Nat), 1⟩, ip.2)

/-- Model of `primary := ('+'|'-') primary | '(' expr ')' | number`, parameterized by
the parser for parenthesized subexpressions (fuel-bounded structural
recursion). -/
def parsePrimaryF (pe : List Char → Option (JsNum × List Char)) :
    Nat → List Char → Option (JsNum × List Char)
  | 0, _ => none
  | fuel+1, ts =>
    match ts with
    | '(' :: r =>
      match pe r with
      | some (v, ')' :: r2) => some (v, r2)
      | _ => none
    | '-' :: r => (parsePrimaryF pe fuel r).map (fun p => (p.1.neg, p.2))
    | '+' :: r => parsePrimaryF pe fuel r
    | _ => parseNumber ts

/-- Model of `(('*'|'/') primary)*`, folding into the accumulator; a division by zero
is the non-finite JS result, rejected. -/
def parseTermTailF (pp : List Char → Option (JsNum × List Char)) :
    Nat → JsNum → List Char → Option (JsNum × List Char)
  | 0, _, _ => none
  | fuel+1, acc, ts =>
    match ts with
    | '*' :: r =>
      match pp r with
      | none => none
      | some (v, r2) => parseTermTailF pp fuel (acc.mul v) r2
    | '/' :: r =>
      match pp r with
      | none => none
      | some (v, r2) => if v.num = 0 then none else parseTermTailF pp fuel (acc.div v) r2
    | _ => some (acc, ts)

/-- Model of `(('+'|'-') term)*`. -/
def parseExprTailF (pt : List Char → Option (JsNum × List Char)) :
    Nat → JsNum → List Char → Option (JsNum × List Char)
  | 0, _, _ => none
  | fuel+1, acc, ts =>
    match ts with
    | '+' :: r =>
      match pt r with
      | none => none
      | some (v, r2) => parseExprTailF pt fuel (acc.add v) r2
    | '-' :: r =>
      match pt r with
      | none => none
      | some (v, r2) => parseExprTailF pt fuel (acc.sub v) r2
    | _ => some (acc, ts)

/-- Model of `expr := term (('+'|'-') term)*` with `term := primary (('*'|'/')
primary)*`, tying the grammar's knot through the fuel. -/
def parseExpr : Nat → List Char → Option (JsNum × List Char)
  | 0, _ => none
  | fuel+1, ts =>
    let pp := parsePrimaryF (parseExpr fuel) fuel
    let pt := fun ts2 =>
      match pp ts2 with
      | none => none
      | some (v, r) => parseTermTailF pp fuel v r
    match pt ts with
    | none => none
    | some (v, r) => parseExprTailF pt fuel v r

/-- Model of `CalculatorTool.safeEval`: strip all whitespace (`replace(/\s+/g, '')`),
evaluate, and reject anything that is not a finite number. -/
def safeEval (expression : String) : Option JsNum :=
  let sanitized := expression.data.filter (fun c => !(jsIsSpace c))
  match parseExpr (3 * sanitized.length + 8) sanitized with
  | some (v, []) => some v
  | _ => none

/-- Number-to-string conversion for the calculator's result message.  An
integral value prints as the integer, as in JS; the float printing of
non-integral values is abstracted (no verified run produces one). -/
def jsNumToString (q : JsNum) : String :=
  if q.den == 1 then toString q.num
  else if q.den != 0 && q.num % (q.den : Int) == 0 then toString (q.num / (q.den : Int))
  else toString q.num ++ "/" ++ toString q.den

/-! ## Environment: external collaborators and nondeterminism -/

/-- Inputs the core code consumes from outside: database connectivity, the
module-level availability flag of `memory.ts`, the OpenAI completion
collaborator, the clock and `Math.random`.

`openAICall` is the observable outcome of
`getOpenAIService().generateResponse(...)`: `Except.error` when obtaining the
service throws (missing API key), `.ok none`/`.ok (some s)` for a resolved
`string | null`. -/
structure Env where
  dbConn : Bool
  dbAvailable : Bool
  openAICall : Except Unit (Option String)
  timeStr : String
  randIdx : Nat
  now : Nat

/-! ## Tool registry (`src/agents/tools.ts`) -/

/-- The tool inputs produced by `extractToolInput`: `{query}`, `{expression}`,
`{key, value, userId}`, `{type}` or `{}`. -/
inductive ToolInput where
  | search (query : String)
  | calc (expression : String)
  | remember (key : String) (value : String) (userId : String)
  | courtesy (ctype : String)
  | empty
deriving Repr, DecidableEq

/-- Model of `AgentTool`: named capability with `execute(input) -> text`.  A rejected
promise is `Except.error`; every concrete tool of the registry resolves. -/
structure AgentTool where
  name : String
  execute : Env → ToolInput → Except String String

/-- Allowed characters of the calculator (`/^[0-9+\-*\/().\s]+$/`). -/
def calcAllowedChar (c : Char) : Bool :=
  c.isDigit || c = '+' || c = '-' || c = '*' || c = '/' || c = '(' || c = ')'
    || c = '.' || jsIsSpace c

/-- Model of `TimeTool.execute`. -/
def timeToolExecute (env : Env) (_ : ToolInput) : Except String String :=
  .ok ("La hora actual es: " ++ env.timeStr)

/-- The simulated search responses of `WebSearchTool`, in declaration order. -/
def webSearchResponses : List (String × String) :=
  [("clima", "El clima actual en Bogotá es de 18°C con cielo parcialmente nublado."),
   ("noticias", "Las principales noticias del día incluyen avances en tecnología y economía."),
   ("tiempo", "El pronóstico del tiempo para hoy indica condiciones estables."),
   ("ayuda", "Estoy aquí para ayudarte. ¿En qué puedo asistirte?"),
   ("saludo", "¡Hola! ¿Cómo puedo ayudarte hoy?")]

/-- Model of `WebSearchTool.execute`.  A destructuring of a non-`{query}` input leaves
`query` undefined and takes the invalid-input branch. -/
def webSearchExecute (_ : Env) : ToolInput → Except String String
  | .search q =>
    if q == "" then .ok "Por favor, proporciona un término de búsqueda válido."
    else
      let lq := jsToLower q
      match webSearchResponses.find? (fun p => jsIncludes lq p.1) with
      | some p => .ok p.2
      | none =>
        .ok ("He realizado una búsqueda sobre \"" ++ q ++ "\". Encontré información relevante que podría ser útil para tu consulta. ¿Te gustaría que profundice en algún aspecto específico?")
  | _ => .ok "Por favor, proporciona un término de búsqueda válido."

/-- Model of `CalculatorTool.execute`. -/
def calculatorExecute (_ : Env) : ToolInput → Except String String
  | .calc e =>
    if e == "" then .ok "Por favor, proporciona una expresión matemática válida."
    else if !(e.data.all calcAllowedChar) then
      .ok "La expresión contiene caracteres no permitidos. Solo se permiten números y operadores básicos (+, -, *, /, .)."
    else
      match safeEval e with
      | some v => .ok ("El resultado de " ++ e ++ " es: " ++ jsNumToString v)
      | none => .ok "No pude calcular esa expresión. Verifica que esté correctamente escrita."
  | _ => .ok "Por favor, proporciona una expresión matemática válida."

/-- Model of `JSON.stringify` of a string value, as it appears in `MemoryTool`'s reply
(escaping of quotes inside the value is not modelled; no claim observes it). -/
def jsonStringifyStr (v : String) : String :=
  "\"" ++ v ++ "\""

/-- Model of `MemoryTool.execute`.  The tool's private key-value map is registry-owned
state that no verified claim observes; only the returned text is modelled. -/
def memoryToolExecute (_ : Env) : ToolInput → Except String String
  | .remember key value userId =>
    if key == "" || userId == "" then
      .ok "Se requiere una clave y ID de usuario para guardar información."
    else
      .ok ("He guardado " ++ jsonStringifyStr key ++ ": " ++ jsonStringifyStr value
            ++ " para recordar en futuras conversaciones.")
  | _ => .ok "Se requiere una clave y ID de usuario para guardar información."

/-- The response sets of `CourtesyTool`, keyed by courtesy type. -/
def courtesyResponses (ctype : String) : Option (List String) :=
  if ctype == "greeting" then
    some ["¡Hola! ¿En qué puedo ayudarte hoy?",
          "¡Buen día! ¿Cómo estás?",
          "¡Hola! Estoy aquí para asistirte."]
  else if ctype == "thanks" then
    some ["¡De nada! ¿Hay algo más en lo que pueda ayudarte?",
          "Es un placer ayudarte.",
          "¡Con gusto! ¿Necesitas algo más?"]
  else if ctype == "goodbye" then
    some ["¡Hasta luego! Que tengas un excelente día.",
          "¡Adiós! Nos vemos pronto.",
          "¡Hasta la próxima! Cuídate."]
  else if ctype == "apology" then
    some ["Disculpa si no pude ayudarte como esperabas.",
          "Lamento cualquier inconveniente.",
          "Perdón, intentaré mejorar mi respuesta."]
  else if ctype == "help" then
    some ["Estoy aquí para ayudarte. ¿Qué necesitas?",
          "¿En qué puedo asistirte hoy?",
          "Cuéntame, ¿cómo puedo ayudarte?"]
  else none

/-- Model of `CourtesyTool.execute`; `Math.floor(Math.random() * len)` is the
environment's `randIdx` reduced modulo the list length. -/
def courtesyExecute (env : Env) : ToolInput → Except String String
  | .courtesy ctype =>
    match courtesyResponses ctype with
    | some rs => .ok (rs.getD (env.randIdx % rs.length) "¿En qué puedo ayudarte?")
    | none => .ok "¿En qué puedo ayudarte?"
  | _ => .ok "¿En qué puedo ayudarte?"

/-- Model of `AVAILABLE_TOOLS`, in declaration order. -/
def AVAILABLE_TOOLS : List AgentTool :=
  [⟨"get_current_time", timeToolExecute⟩,
   ⟨"web_search", webSearchExecute⟩,
   ⟨"calculator", calculatorExecute⟩,
   ⟨"remember_info", memoryToolExecute⟩,
   ⟨"courtesy_response", courtesyExecute⟩]

/-- Model of `getToolByName`. -/
def getToolByName (name : String) : Option AgentTool :=
  AVAILABLE_TOOLS.find? (fun t => t.name == name)

/-! ## Agent state (`src/types/index.ts`, `AgentMemory` pure helpers) -/

/-- One turn of the conversation (`role`, `content`; the `timestamp` field is
not modelled, no claim observes it). -/
structure ChatMsg where
  role : String
  content : String
deriving Repr, DecidableEq

/-- The free-form `context` map, shallow-embedded with the keys the state
machine reads and writes. -/
structure AgentContext where
  user_id : String
  selected_tool : Option String := none
  tool_input : Option ToolInput := none
  tool_result : Option String := none
deriving Repr, DecidableEq

/-- Model of `AgentState`. -/
structure AgentState where
  messages : List ChatMsg
  session_id : String
  context : AgentContext
  current_node : String
deriving Repr, DecidableEq

/-- Model of `AgentMemory.createInitialAgentState`. -/
def createInitialAgentState (sessionId userId : String) : AgentState :=
  { messages := []
    session_id := sessionId
    context := { user_id := userId }
    current_node := "start" }

/-- Model of `AgentMemory.addMessageToState`. -/
def addMessageToState (st : AgentState) (role content : String) : AgentState :=
  { st with messages := st.messages ++ [{ role := role, content := content }] }

/-! ## Database rows and state (`src/database/schema.ts`) -/

/-- A row of `users` (`created_at`/`updated_at` omitted). -/
structure UserRow where
  id : String
  wa_id : String
  phone_number : String
  profile_name : Option String
deriving Repr, DecidableEq

/-- A row of `conversations`; `updated_at` is a logical clock value used by
`ORDER BY updated_at DESC`. -/
structure ConvRow where
  id : String
  user_id : String
  title : Option String
  updated_at : Nat
deriving Repr, DecidableEq

/-- A row of `messages` (`timestamp`/`status`/`created_at` omitted;
`whatsapp_message_id` carries the `UNIQUE` constraint). -/
structure MsgRow where
  id : String
  conversation_id : String
  direction : String
  message_type : String
  content : String
  whatsapp_message_id : Option String
deriving Repr, DecidableEq

/-- A row of `sessions` (`user_id` is `UNIQUE`; `agent_state` holds the
serialized state, modelled unserialized). -/
structure SessionRow where
  id : String
  user_id : String
  agent_state : AgentState
  expires_at : Option Nat := none
deriving Repr, DecidableEq

/-- The database: table contents, a UUID source and the logical clock behind
`NOW()` orderings. -/
structure Db where
  users : List UserRow := []
  conversations : List ConvRow := []
  messages : List MsgRow := []
  sessions : List SessionRow := []
  nextId : Nat := 0
  clock : Nat := 0

/-- Fresh row id (`gen_random_uuid()`). -/
def Db.freshId (db : Db) : String × Db :=
  ("row_" ++ toString db.nextId, { db with nextId := db.nextId + 1 })

/-! ## Repositories (`src/database/repositories.ts`)

Each repository method issues queries through `executeQuery`; when the
database is unreachable (`env.dbConn = false`) the driver rejects and the
method's catch block rethrows, which the embedding renders as
`Except.error "connection error"`. -/

/-- Model of `UserRepository.upsertUser`: `INSERT ... ON CONFLICT (wa_id) DO UPDATE SET
phone_number = EXCLUDED.phone_number, profile_name =
COALESCE(EXCLUDED.profile_name, users.profile_name)`.  An absent/undefined
`profileName` reaches the driver as SQL `NULL` (`Option.orElse` keeps the old
name); an empty string is not `NULL` and overwrites. -/
def upsertUser (env : Env) (db : Db) (waId phoneNumber : String)
    (profileName : Option String) : Except String (UserRow × Db) :=
  if !env.dbConn then .error "connection error"
  else
    match db.users.find? (fun u => u.wa_id == waId) with
    | some u =>
      let u2 : UserRow :=
        { u with phone_number := phoneNumber
                 profile_name := profileName.orElse (fun _ => u.profile_name) }
      .ok (u2, { db with users := db.users.map (fun v => if v.wa_id == waId then u2 else v) })
    | none =>
      let p := db.freshId
      let u2 : UserRow :=
        { id := p.1, wa_id := waId, phone_number := phoneNumber, profile_name := profileName }
      .ok (u2, { p.2 with users := p.2.users ++ [u2] })

/-- Model of `UserRepository.getUserByWaId`. -/
def getUserByWaId (env : Env) (db : Db) (waId : String) :
    Except String (Option UserRow × Db) :=
  if !env.dbConn then .error "connection error"
  else .ok (db.users.find? (fun u => u.wa_id == waId), db)

/-- Model of `ConversationRepository.createConversation` (the `user_id` foreign key to
`users(id)` makes the insert fail for an unknown user). -/
def createConversation (env : Env) (db : Db) (userId : String) (title : Option String) :
    Except String (String × Db) :=
  if !env.dbConn then .error "connection error"
  else if !(db.users.any (fun u => u.id == userId)) then .error "foreign key violation"
  else
    let p := db.freshId
    let c : ConvRow := { id := p.1, user_id := userId, title := title, updated_at := p.2.clock }
    .ok (p.1, { p.2 with conversations := p.2.conversations ++ [c], clock := p.2.clock + 1 })

/-- Model of `ConversationRepository.getUserConversations` with `LIMIT 1`: the user's
most recently updated conversation (`ORDER BY updated_at DESC`). -/
def mostRecentConversation (env : Env) (db : Db) (userId : String) :
    Except String (Option ConvRow × Db) :=
  if !env.dbConn then .error "connection error"
  else
    let mine := db.conversations.filter (fun c => c.user_id == userId)
    .ok (mine.foldl (fun best c =>
          match best with
          | none => some c
          | some b => if c.updated_at > b.updated_at then some c else some b) none, db)

/-- Model of `ConversationRepository.updateConversationTimestamp` (`UPDATE ... SET
updated_at = NOW()`; updating a missing id affects zero rows and is not an
error). -/
def updateConversationTimestamp (env : Env) (db : Db) (conversationId : String) :
    Except String (Unit × Db) :=
  if !env.dbConn then .error "connection error"
  else
    .ok ((), { db with
      conversations := db.conversations.map (fun c =>
        if c.id == conversationId then { c with updated_at := db.clock } else c)
      clock := db.clock + 1 })

/-- Model of `MessageRepository.saveMessage`: required-field validation, then `INSERT
INTO messages ...` (foreign key on `conversation_id`, `CHECK` on `direction`,
`UNIQUE` on `whatsapp_message_id`), then the conversation-timestamp update. -/
def saveMessageRepo (env : Env) (db : Db) (conversationId direction messageType content : String)
    (whatsappMessageId : Option String) : Except String (String × Db) :=
  if conversationId == "" || direction == "" || messageType == "" || content == "" then
    .error "Datos requeridos faltantes para guardar mensaje"
  else if !env.dbConn then .error "connection error"
  else if !(db.conversations.any (fun c => c.id == conversationId)) then
    .error "foreign key violation"
  else if !(direction == "incoming" || direction == "outgoing") then
    .error "check constraint violation"
  else if whatsappMessageId.any (fun w => db.messages.any (fun m => m.whatsapp_message_id == some w)) then
    .error "duplicate key value violates unique constraint"
  else
    let p := db.freshId
    let row : MsgRow :=
      { id := p.1, conversation_id := conversationId, direction := direction
        message_type := messageType, content := content
        whatsapp_message_id := whatsappMessageId }
    let db2 := { p.2 with messages := p.2.messages ++ [row] }
    match updateConversationTimestamp env db2 conversationId with
    | .error e => .error e
    | .ok (_, db3) => .ok (p.1, db3)

/-- Model of `validateAgentState` + the input validation of
`SessionRepository.saveAgentState`, as a single check (`messages` is always an
array and `context` always an object in the typed embedding). -/
def agentStateInvalid (userId : String) (st : AgentState) : Bool :=
  jsTrim userId == "" || jsTrim st.session_id == ""

/-- Model of `SessionRepository.saveAgentState`: validation, serialization (modelled as
the identity on the typed state) and `INSERT INTO sessions ... ON CONFLICT
(user_id) DO UPDATE SET agent_state = EXCLUDED.agent_state`. -/
def saveAgentStateRepo (env : Env) (db : Db) (userId : String) (st : AgentState) :
    Except String (String × Db) :=
  if agentStateInvalid userId st then .error "ValidationError"
  else if !env.dbConn then .error "connection error"
  else if !(db.users.any (fun u => u.id == userId)) then .error "foreign key violation"
  else
    match db.sessions.find? (fun s => s.user_id == userId) with
    | some s =>
      .ok (s.id, { db with sessions := db.sessions.map (fun t =>
        if t.user_id == userId then { t with agent_state := st } else t) })
    | none =>
      let p := db.freshId
      let row : SessionRow := { id := p.1, user_id := userId, agent_state := st }
      .ok (p.1, { p.2 with sessions := p.2.sessions ++ [row] })

/-- Model of `SessionRepository.getAgentState`: the non-expired session of the user
(`expires_at IS NULL OR expires_at > NOW()`). -/
def getAgentStateRepo (env : Env) (db : Db) (userId : String) :
    Except String (Option AgentState × Db) :=
  if !env.dbConn then .error "connection error"
  else
    .ok ((db.sessions.find? (fun s => s.user_id == userId
            && (s.expires_at.isNone || s.expires_at.any (fun e => e > env.now)))).map
          (fun s => s.agent_state), db)

/-- The module-level helper `getOrCreateConversation` of `repositories.ts`. -/
def getOrCreateConversationRepo (env : Env) (db : Db) (userId : String)
    (title : Option String) : Except String (String × Db) :=
  match mostRecentConversation env db userId with
  | .error e => .error e
  | .ok (some c, db2) => .ok (c.id, db2)
  | .ok (none, db2) => createConversation env db2 userId title

/-! ## AgentMemory (`src/agents/memory.ts`)

Every method first consults the module-level `isDatabaseAvailable` flag
(`env.dbAvailable`); in degraded mode reads report absence, writes no-op
successfully, and the repository (and hence the database) is never touched.
When the store is available, repository errors are rethrown. -/

/-- Model of `AgentMemory.saveAgentState`. -/
def memSaveAgentState (env : Env) (db : Db) (userId : String) (st : AgentState) :
    Except String (Unit × Db) :=
  if !env.dbAvailable then .ok ((), db)
  else
    match saveAgentStateRepo env db userId st with
    | .error e => .error e
    | .ok (_, db2) => .ok ((), db2)

/-- Model of `AgentMemory.loadAgentState`. -/
def memLoadAgentState (env : Env) (db : Db) (userId : String) :
    Except String (Option AgentState × Db) :=
  if !env.dbAvailable then .ok (none, db)
  else getAgentStateRepo env db userId

/-- Model of `AgentMemory.getOrCreateConversation` (the ephemeral id is
`mem_${userId}_${Date.now()}`). -/
def memGetOrCreateConversation (env : Env) (db : Db) (userId : String)
    (title : Option String) : Except String (String × Db) :=
  if !env.dbAvailable then
    .ok ("mem_" ++ userId ++ "_" ++ toString env.now, db)
  else getOrCreateConversationRepo env db userId title

/-- Model of `AgentMemory.saveMessage` (the ephemeral id is
`msg_${conversationId}_${Date.now()}`). -/
def memSaveMessage (env : Env) (db : Db) (conversationId direction messageType content : String)
    (whatsappMessageId : Option String) : Except String (String × Db) :=
  if !env.dbAvailable then
    .ok ("msg_" ++ conversationId ++ "_" ++ toString env.now, db)
  else saveMessageRepo env db conversationId direction messageType content whatsappMessageId

/-! ## Conversation state machine (`src/agents/whatsappAgent.ts`) -/

/-- The ordered keyword-pattern table of `analyzeIntent` (five tools). -/
def toolPatterns : List (String × List String) :=
  [("get_current_time", ["hora", "tiempo", "fecha"]),
   ("web_search", ["buscar", "busca", "investigar", "noticias"]),
   ("calculator", ["calcular", "suma", "resta", "multiplica", "divide", "+", "-", "*", "/"]),
   ("remember_info", ["recuerda", "guarda", "memoria"]),
   ("courtesy_response", ["hola", "gracias", "adiós", "ayuda", "disculpa"])]

/-- Model of `state.messages.filter(m => m.role === 'user').pop()`. -/
def lastUserMessage (st : AgentState) : Option ChatMsg :=
  (st.messages.filter (fun m => m.role == "user")).getLast?

/-- Does the lowercased content match one of the entry's patterns
(`patterns.some(pattern => content.includes(pattern))`)? -/
def entryMatches (content : String) (e : String × List String) : Bool :=
  e.2.any (fun p => jsIncludes content p)

/-- First pattern-table entry matching the content, in declaration order. -/
def findMatchingTool (content : String) : List (String × List String) → Option (String × List String)
  | [] => none
  | e :: rest => if entryMatches content e then some e else findMatchingTool content rest

/-- Model of `mapContentToCourtesyType`. -/
def mapContentToCourtesyType (content : String) : String :=
  let lc := jsToLower content
  if jsIncludes lc "hola" || jsIncludes lc "buenos" then "greeting"
  else if jsIncludes lc "gracias" then "thanks"
  else if jsIncludes lc "adiós" || jsIncludes lc "chau" then "goodbye"
  else if jsIncludes lc "disculpa" then "apology"
  else if jsIncludes lc "ayuda" then "help"
  else "help"

/-- Model of `content.replace(/^(alt1|alt2|...)/i, '').trim()`: a regex alternation
matches its alternatives left to right, so the first case-insensitive prefix
among `alts` is removed. -/
def stripLeadingAlt (content : String) (alts : List String) : String :=
  match alts.find? (fun a => jsStartsWith (jsToLower content) a) with
  | some a => jsTrim (⟨content.data.drop a.length⟩)
  | none => jsTrim content

/-- Model of `extractToolInput`. -/
def extractToolInput (content toolName userId : String) : ToolInput :=
  if toolName == "web_search" then
    .search (stripLeadingAlt content ["busca", "buscar", "investiga"])
  else if toolName == "calculator" then
    .calc (stripLeadingAlt content ["calcula", "calcular"])
  else if toolName == "remember_info" then
    .remember "info" content userId
  else if toolName == "courtesy_response" then
    .courtesy (mapContentToCourtesyType content)
  else .empty

/-- The graph node `processInput`: requires the last message to be a user
turn (otherwise the catch routes to `error`), appends the system context
message and moves to `analyze`. -/
def systemContextMessage : String :=
  "Eres un asistente conversacional útil para WhatsApp. Usa las herramientas disponibles cuando sea necesario."

def processInput (st : AgentState) : AgentState :=
  match st.messages.getLast? with
  | some m =>
    if m.role == "user" then
      { st with
        messages := st.messages ++ [{ role := "system", content := systemContextMessage }]
        current_node := "analyze" }
    else { st with current_node := "error" }
  | none => { st with current_node := "error" }

/-- The graph node `analyzeIntent`. -/
def analyzeIntent (st : AgentState) : AgentState :=
  match lastUserMessage st with
  | none => { st with current_node := "respond" }
  | some m =>
    let content := jsToLower m.content
    match findMatchingTool content toolPatterns with
    | some e =>
      { st with
        context := { st.context with
          selected_tool := some e.1
          tool_input := some (extractToolInput content e.1 st.context.user_id) }
        current_node := "use_tool" }
    | none => { st with current_node := "respond" }

/-- The generic apology of `useTool`'s catch block. -/
def toolApology : String := "Lo siento, tuve un problema al procesar tu solicitud."

/-- The graph node `useTool`, parameterized by the registry the lookup
resolves against: lookup failure or a rejected `execute` is caught locally,
replaced by the apology turn, and the machine still moves to `finalize`. -/
def useTool (env : Env) (registry : List AgentTool) (st : AgentState) : AgentState :=
  match registry.find? (fun t => t.name == (st.context.selected_tool.getD "")) with
  | none =>
    { st with messages := st.messages ++ [{ role := "assistant", content := toolApology }]
              current_node := "finalize" }
  | some tool =>
    match tool.execute env (st.context.tool_input.getD .empty) with
    | .ok toolResult =>
      { st with
        messages := st.messages ++ [{ role := "assistant", content := toolResult }]
        context := { st.context with
          tool_result := some toolResult, selected_tool := none, tool_input := none }
        current_node := "finalize" }
    | .error _ =>
      { st with messages := st.messages ++ [{ role := "assistant", content := toolApology }]
                current_node := "finalize" }

/-- The graph node `generateResponse`: OpenAI with `aiResponse || default`,
falling back to the canned keyword replies when obtaining the completion
throws. -/
def generateResponse (env : Env) (st : AgentState) : AgentState :=
  let userContent := ((lastUserMessage st).map (fun m => m.content)).getD ""
  let response :=
    match env.openAICall with
    | .ok aiResponse =>
      match aiResponse with
      | some s => if s == "" then "Entiendo tu mensaje. ¿En qué más puedo ayudarte?" else s
      | none => "Entiendo tu mensaje. ¿En qué más puedo ayudarte?"
    | .error _ =>
      let lc := jsToLower userContent
      if jsIncludes lc "hola" || jsIncludes lc "buenos" then
        "¡Hola! ¿Cómo estás? Estoy aquí para ayudarte."
      else if jsIncludes lc "gracias" then
        "¡De nada! ¿Hay algo más en lo que pueda asistirte?"
      else if jsIncludes lc "adiós" || jsIncludes lc "chau" then
        "¡Hasta luego! Que tengas un excelente día."
      else "Entiendo tu mensaje. ¿En qué más puedo ayudarte?"
  { st with messages := st.messages ++ [{ role := "assistant", content := response }]
            current_node := "finalize" }

/-- The graph node `finalizeResponse`: persists through
`AgentMemory.saveAgentState` and marks the machine done (`END`); a save error
is caught and routes to `error`. -/
def finalizeResponse (env : Env) (db : Db) (st : AgentState) : AgentState × Db :=
  match memSaveAgentState env db st.context.user_id st with
  | .ok (_, db2) => ({ st with current_node := "END" }, db2)
  | .error _ => ({ st with current_node := "error" }, db)

/-- The graph node `handleError`: a final apology turn, then termination. -/
def handleError (st : AgentState) : AgentState :=
  { st with
    messages := st.messages ++
      [{ role := "assistant"
         content := "Lo siento, ocurrió un error interno. Por favor, intenta de nuevo." }]
    current_node := "END" }

/-- One state-machine step, dispatching on `current_node` (the node set and
transitions of `start → analyze → {use_tool | respond} → finalize → done`,
with `error` reachable from any step). -/
def stepNode (env : Env) (registry : List AgentTool) (p : AgentState × Db) : AgentState × Db :=
  match p.1.current_node with
  | "start" => (processInput p.1, p.2)
  | "analyze" => (analyzeIntent p.1, p.2)
  | "use_tool" => (useTool env registry p.1, p.2)
  | "respond" => (generateResponse env p.1, p.2)
  | "finalize" => finalizeResponse env p.2 p.1
  | "error" => (handleError p.1, p.2)
  | _ => p

/-- Run the machine until the terminal `END` marker (fuel-bounded; the graph
is acyclic so any fuel beyond the path length is enough). -/
def runGraph : Nat → Env → List AgentTool → AgentState × Db → AgentState × Db
  | 0, _, _, p => p
  | fuel+1, env, registry, p =>
    if p.1.current_node == "END" then p
    else runGraph fuel env registry (stepNode env registry p)

/-! ## WhatsAppAgent (`processMessageWithLogic`, `processTextMessage`) -/

/-- The four-entry pattern table of `processMessageWithLogic` (it omits
`remember_info`). -/
def toolPatternsSimple : List (String × List String) :=
  [("get_current_time", ["hora", "tiempo", "fecha"]),
   ("web_search", ["buscar", "busca", "investigar", "noticias"]),
   ("calculator", ["calcular", "suma", "resta", "multiplica", "divide", "+", "-", "*", "/"]),
   ("courtesy_response", ["hola", "gracias", "adiós", "ayuda", "disculpa"])]

/-- The tool loop of `processMessageWithLogic`: on a pattern match, resolve
and execute the tool (an execution error becomes the per-tool apology); a
matched name missing from the registry falls through to the next entry. -/
def processWithTools (env : Env) (userId content : String) :
    List (String × List String) → Option String
  | [] => none
  | e :: rest =>
    if entryMatches content e then
      match getToolByName e.1 with
      | some tool =>
        some (match tool.execute env (extractToolInput content e.1 userId) with
              | .ok r => r
              | .error _ => "Lo siento, tuve un problema al procesar tu solicitud con esa herramienta.")
      | none => processWithTools env userId content rest
    else processWithTools env userId content rest

/-- Model of `WhatsAppAgent.processMessageWithLogic`. -/
def processMessageWithLogic (env : Env) (st : AgentState) (messageContent : String) : String :=
  let content := jsToLower messageContent
  match processWithTools env st.context.user_id content toolPatternsSimple with
  | some r => r
  | none =>
    match env.openAICall with
    | .ok aiResponse =>
      match aiResponse with
      | some s => if s == "" then "Entiendo tu mensaje. ¿En qué más puedo ayudarte?" else s
      | none => "Entiendo tu mensaje. ¿En qué más puedo ayudarte?"
    | .error _ =>
      if jsIncludes content "hola" || jsIncludes content "buenos" then
        "¡Hola! ¿Cómo estás? Estoy aquí para ayudarte."
      else if jsIncludes content "gracias" then
        "¡De nada! ¿Hay algo más en lo que pueda asistirte?"
      else if jsIncludes content "adiós" || jsIncludes content "chau" then
        "¡Hasta luego! Que tengas un excelente día."
      else "Entiendo tu mensaje. ¿En qué más puedo ayudarte?"

/-- The `try { ... } catch { /* swallow */ }` wrapper `processTextMessage`
puts around each persistence call: on success keep the new database, on error
keep the old one and continue. -/
def swallowSave (r : Except String (String × Db)) (db : Db) : Db :=
  match r with
  | .ok (_, d) => d
  | .error _ => db

/-- The user-resolution phase of `processTextMessage`: `getUserByWaId`,
falling back to `upsertUser(waId, waId, profileName)` for a first contact
(the phone number is assumed to equal the WhatsApp id, as in the source). -/
def resolveUser (env : Env) (db : Db) (waId : String) (profileName : Option String) :
    Except String (UserRow × Db) :=
  match getUserByWaId env db waId with
  | .error e => .error e
  | .ok (some u, db1) => .ok (u, db1)
  | .ok (none, db1) => upsertUser env db1 waId waId profileName

/-- The state-resolution phase of `processTextMessage`:
`AgentMemory.loadAgentState`, creating a conversation and a fresh initial
state when absent. -/
def resolveState (env : Env) (db : Db) (userId : String) :
    Except String (AgentState × Db) :=
  match memLoadAgentState env db userId with
  | .error e => .error e
  | .ok (some st, db3) => .ok (st, db3)
  | .ok (none, db3) =>
    match memGetOrCreateConversation env db3 userId (some "WhatsApp Conversation") with
    | .error e => .error e
    | .ok (conversationId, db4) =>
      .ok (createInitialAgentState conversationId userId, db4)

/-- The tail of a non-`ping` turn: compute the response through
`processMessageWithLogic` (its internal faults are all absorbed, so the inner
`try/catch` of the source is unreachable in the model), apply the
`if (!response)` fallback, append the assistant turn, and perform the three
swallowed persistence writes (state, incoming message, outgoing message). -/
def runTurn (env : Env) (db5 : Db) (userId : String) (st1 : AgentState)
    (messageContent : String) (waMessageId : Option String) : String × Db :=
  let r0 := processMessageWithLogic env st1 messageContent
  let response := if r0 == "" then "No te entiendo. ¿Puedes intentar de nuevo?" else r0
  let st2 := addMessageToState st1 "assistant" response
  let db6 :=
    match memSaveAgentState env db5 userId st2 with
    | .ok (_, d) => d
    | .error _ => db5
  let db7 := swallowSave
    (memSaveMessage env db6 st2.session_id "incoming" "text" messageContent waMessageId) db6
  let db8 := swallowSave
    (memSaveMessage env db7 st2.session_id "outgoing" "text" response none) db7
  (response, db8)

/-- The body of `WhatsAppAgent.processTextMessage` up to its outermost catch:
input validation, user lookup/creation, state load-or-create, the user-turn
append, the `ping` short-circuit, and the response/persistence tail. -/
def processTextMessageCore (env : Env) (db : Db) (waId messageContent : String)
    (waMessageId : Option String) (profileName : Option String) :
    Except String (String × Db) :=
  if jsTrim waId == "" then
    .error "waId es requerido y debe ser una cadena no vacía"
  else if jsTrim messageContent == "" then
    .error "messageContent es requerido y debe ser una cadena no vacía"
  else
    match resolveUser env db waId profileName with
    | .error e => .error e
    | .ok (user, db2) =>
      match resolveState env db2 user.id with
      | .error e => .error e
      | .ok (st0, db5) =>
        let st1 := addMessageToState st0 "user" messageContent
        if jsIncludes (jsToLower messageContent) "ping" then
          .ok ("pong", db5)
        else
          .ok (runTurn env db5 user.id st1 messageContent waMessageId)

/-- Model of `WhatsAppAgent.processTextMessage`: the outermost catch returns the
generic failure apology.  (Every error the core can raise occurs before any
database mutation, so returning the entry database in the catch matches the
source.) -/
def processTextMessage (env : Env) (db : Db) (waId messageContent : String)
    (waMessageId : Option String) (profileName : Option String) : String × Db :=
  match processTextMessageCore env db waId messageContent waMessageId profileName with
  | .ok r => r
  | .error _ => ("Lo siento, ocurrió un error al procesar tu mensaje.", db)

/-! ## Derived observations used by the statements -/

/-- Number of stored message rows carrying a given provider (WhatsApp)
message id. -/
def countWaMsg (db : Db) (w : String) : Nat :=
  (db.messages.filter (fun m => m.whatsapp_message_id == some w)).length

/-- A canonical single-message webhook payload whose only message is a text
message, as Meta delivers it (one entry, one `messages` change). -/
def mkTextPayload (entryId fromId msgId ts body : String) : Json :=
  .jobj
    [("object", .jstr "whatsapp_business_account"),
     ("entry", .jarr
       [.jobj
         [("id", .jstr entryId),
          ("changes", .jarr
            [.jobj
              [("field", .jstr "messages"),
               ("value", .jobj
                 [("messaging_product", .jstr "whatsapp"),
                  ("messages", .jarr
                    [.jobj
                      [("id", .jstr msgId),
                       ("from", .jstr fromId),
                       ("timestamp", .jstr ts),
                       ("type", .jstr "text"),
                       ("text", .jobj [("body", .jstr body)])]])])]])]])]

/-! ## The `"calcula 2+2*3"` scenario: intermediate machine states -/

/-- Initial state of the scenario: fresh state plus the user turn. -/
def calcSt0 (sid uid : String) : AgentState :=
  addMessageToState (createInitialAgentState sid uid) "user" "calcula 2+2*3"

/-- After `processInput`. -/
def calcSt1 (sid uid : String) : AgentState :=
  { messages := [{ role := "user", content := "calcula 2+2*3" },
                 { role := "system", content := systemContextMessage }]
    session_id := sid
    context := { user_id := uid }
    current_node := "analyze" }

/-- After `analyzeIntent`. -/
def calcSt2 (sid uid : String) : AgentState :=
  { messages := [{ role := "user", content := "calcula 2+2*3" },
                 { role := "system", content := systemContextMessage }]
    session_id := sid
    context := { user_id := uid
                 selected_tool := some "calculator"
                 tool_input := some (.calc "2+2*3") }
    current_node := "use_tool" }

/-- After `useTool` (the calculator's answer). -/
def calcSt3 (sid uid : String) : AgentState :=
  { messages := [{ role := "user", content := "calcula 2+2*3" },
                 { role := "system", content := systemContextMessage },
                 { role := "assistant", content := "El resultado de 2+2*3 es: 8" }]
    session_id := sid
    context := { user_id := uid
                 tool_result := some "El resultado de 2+2*3 es: 8" }
    current_node := "finalize" }

/-- After `finalizeResponse`: the terminal state. -/
def calcStEnd (sid uid : String) : AgentState :=
  { calcSt3 sid uid with current_node := "END" }

/-! # Theorems -/

/-- C3: the handshake returns exactly the challenge iff mode, token and a
non-empty challenge all check out; any mismatch yields the rejection value
(`null`, mapped by the `GET /webhook` route to a 403).  The embedding of
`verifyWebhook` is a total function, which is the no-server-error guarantee of
the claim (the source additionally wraps the body in a catch-all). -/
theorem verifyWebhook_spec (vt mode token ch : String) :
    ((mode = "subscribe" ∧ token = vt ∧ ch ≠ "") →
      verifyWebhook vt mode token ch = some ch) ∧
    ((mode ≠ "subscribe" ∨ token ≠ vt ∨ ch = "") →
      verifyWebhook vt mode token ch = none) := by
  constructor
  · rintro ⟨h1, h2, h3⟩
    simp [verifyWebhook, h1, h2, h3]
  · intro h
    unfold verifyWebhook
    rcases h with h | h | h
    · simp [h]
    · split
      · rfl
      · simp [h]
    · split
      · rfl
      · split
        · rfl
        · simp [h]

/-- Witness for C3 at concrete inputs. -/
theorem verifyWebhook_spec_witness :
    verifyWebhook "token1" "subscribe" "token1" "ch42" = some "ch42" ∧
    verifyWebhook "token1" "subscribe" "bad" "ch42" = none :=
  ⟨(verifyWebhook_spec "token1" "subscribe" "token1" "ch42").1
      ⟨rfl, rfl, by decide⟩,
   (verifyWebhook_spec "token1" "subscribe" "bad" "ch42").2
      (Or.inr (Or.inl (by decide)))⟩

/-- C4: a payload whose top-level tag is not `whatsapp_business_account`, or
whose entry list is missing, not an array, or empty, is reported as
`success = false` with a diagnostic error string.  `processWebhookPayload` is
a total Lean function over arbitrary JSON values, which renders the claim's
never-throws guarantee. -/
theorem processWebhookPayload_rejects (p : Json)
    (h : isStr (jsGet p "object") "whatsapp_business_account" = false ∨
         asArray (jsGet p "entry") = none ∨ asArray (jsGet p "entry") = some []) :
    (processWebhookPayload p).success = false ∧
    (processWebhookPayload p).error.isSome = true := by
  unfold processWebhookPayload validateWebhookPayload
  by_cases h0 : (!(jsTruthy p) || !(isObjectLike p)) = true
  · simp [h0]
  · rw [if_neg h0]
    by_cases h1 : isStr (jsGet p "object") "whatsapp_business_account" = true
    · rw [if_neg (by simp [h1])]
      rcases h with h | h | h
      · rw [h1] at h; cases h
      · simp [h]
      · simp [h]
    · rw [if_pos (by simp [Bool.not_eq_true] at h1 ⊢; exact h1)]
      simp

/-- Witness for C4 at a concrete payload. -/
theorem processWebhookPayload_rejects_witness :
    (processWebhookPayload (.jobj [("object", .jstr "page")])).success = false ∧
    (processWebhookPayload (.jobj [("object", .jstr "page")])).error.isSome = true :=
  processWebhookPayload_rejects (.jobj [("object", .jstr "page")])
    (Or.inl (by decide))

/-- C5: a structurally valid payload whose only message is a text message
with a whitespace-only body yields `success = true`, no extracted canonical
message and `shouldRespond = false`. -/
theorem whitespace_text_ignored (entryId fromId msgId ts body : String)
    (hE : entryId ≠ "") (hB : jsTrim body = "") :
    processWebhookPayload (mkTextPayload entryId fromId msgId ts body) =
      { success := true, shouldRespond := some false } := by
  have hE2 : (entryId == "") = false := beq_eq_false_iff_ne.mpr hE
  have hB2 : (jsTrim body == "") = true := beq_iff_eq.mpr hB
  by_cases hF : (fromId == "") = true
  · simp [processWebhookPayload, validateWebhookPayload, validateEntries, validateChanges,
      processEntriesList, processWebhookEntry, processChangesList, processMessagesList,
      processIncomingMessage, isProcessableMessage, isSupportedType, determineEventType,
      textBodyBlank, shouldAutoRespond, mkTextPayload, jsGet, jsTruthy, isObjectLike,
      isStr, asArray, hE2, hB2, hF, hE]
  · simp [processWebhookPayload, validateWebhookPayload, validateEntries, validateChanges,
      processEntriesList, processWebhookEntry, processChangesList, processMessagesList,
      processIncomingMessage, isProcessableMessage, isSupportedType, determineEventType,
      textBodyBlank, shouldAutoRespond, mkTextPayload, jsGet, jsTruthy, isObjectLike,
      isStr, asArray, hE2, hB2, hF, hE]

/-- Witness for C5 at the spec's concrete whitespace body. -/
theorem whitespace_text_ignored_witness :
    processWebhookPayload (mkTextPayload "entry9" "573001112233" "wamid.X" "1700000000" "  ") =
      { success := true, shouldRespond := some false } :=
  whitespace_text_ignored "entry9" "573001112233" "wamid.X" "1700000000" "  "
    (by decide) (by decide)

/-- If no entry of the table matches, the scan finds nothing. -/
theorem findMatchingTool_eq_none (c : String) :
    ∀ l : List (String × List String),
      (∀ e ∈ l, entryMatches c e = false) → findMatchingTool c l = none := by
  intro l
  induction l with
  | nil => intro _; rfl
  | cons e rest ih =>
    intro h
    rw [findMatchingTool]
    rw [h e (List.mem_cons_self e rest)]
    simp only [Bool.false_eq_true, if_false]
    exact ih (fun x hx => h x (List.mem_cons_of_mem e hx))

/-- The scan returns the matching entry of least index: if entry `i` matches
and every entry before it fails, the scan returns entry `i`. -/
theorem findMatchingTool_first (c : String) :
    ∀ (l : List (String × List String)) (i : Fin l.length),
      entryMatches c (l.get i) = true →
      (∀ e ∈ l.take i.1, entryMatches c e = false) →
      findMatchingTool c l = some (l.get i) := by
  intro l
  induction l with
  | nil => intro i; exact absurd i.2 (by simp)
  | cons e rest ih =>
    intro i hi hlt
    match i with
    | ⟨0, _⟩ =>
      rw [findMatchingTool]
      simp only [List.get] at hi ⊢
      rw [hi]
      simp
    | ⟨j+1, hj⟩ =>
      have he : entryMatches c e = false := hlt e (by simp [List.take_succ_cons])
      rw [findMatchingTool, he]
      simp only [Bool.false_eq_true, if_false]
      exact ih ⟨j, Nat.lt_of_succ_lt_succ hj⟩ hi
        (fun x hx => hlt x (by simp [List.take_succ_cons, hx]))

/-- C6: `analyzeIntent` scans the lowercased message against the ordered
five-tool pattern table; the first entry with a matching substring wins and
the machine moves to `use_tool` with that tool and `extractToolInput`'s
extraction; with no match it moves to `respond`. -/
theorem analyzeIntent_routes (st : AgentState) (m : ChatMsg)
    (hm : lastUserMessage st = some m) :
    toolPatterns.map Prod.fst =
      ["get_current_time", "web_search", "calculator", "remember_info", "courtesy_response"] ∧
    ((∀ e ∈ toolPatterns, entryMatches (jsToLower m.content) e = false) →
      analyzeIntent st = { st with current_node := "respond" }) ∧
    (∀ i : Fin toolPatterns.length,
      entryMatches (jsToLower m.content) (toolPatterns.get i) = true →
      (∀ e ∈ toolPatterns.take i.1, entryMatches (jsToLower m.content) e = false) →
      analyzeIntent st =
        { st with
          context := { st.context with
            selected_tool := some (toolPatterns.get i).1
            tool_input := some (extractToolInput (jsToLower m.content)
              (toolPatterns.get i).1 st.context.user_id) }
          current_node := "use_tool" }) := by
  refine ⟨rfl, ?_, ?_⟩
  · intro h
    simp only [analyzeIntent, hm, findMatchingTool_eq_none _ _ h]
  · intro i hi hlt
    simp only [analyzeIntent, hm, findMatchingTool_first _ _ i hi hlt]

/-- Witness for C6: `"hola"` matches only the courtesy entry (index 4) and is
routed to `courtesy_response` with a greeting-typed input. -/
theorem analyzeIntent_routes_witness :
    analyzeIntent
      { messages := [{ role := "user", content := "hola" }]
        session_id := "s1", context := { user_id := "u1" }, current_node := "analyze" } =
      { messages := [{ role := "user", content := "hola" }]
        session_id := "s1"
        context := { user_id := "u1"
                     selected_tool := some "courtesy_response"
                     tool_input := some (.courtesy "greeting") }
        current_node := "use_tool" } := by
  have h := (analyzeIntent_routes
    { messages := [{ role := "user", content := "hola" }]
      session_id := "s1", context := { user_id := "u1" }, current_node := "analyze" }
    { role := "user", content := "hola" } (by decide)).2.2
    ⟨4, by decide⟩ (by decide) (by decide)
  simpa using h

/-- C8: a selected tool whose `execute` always rejects still yields a
non-crashing turn: `useTool` catches locally, appends the generic apology as
the assistant turn and hands the machine to `finalize`; the subsequent
finalize step (shown here in the degraded no-op persistence mode, which
reports success) terminates the run in `END` with the apology turn intact,
so the conversation is never aborted. -/
theorem throwing_tool_contained (env : Env) (registry : List AgentTool)
    (st : AgentState) (tool : AgentTool) (name : String)
    (hsel : st.context.selected_tool = some name)
    (hfind : registry.find? (fun t => t.name == name) = some tool)
    (hthrow : ∀ e i, ∃ msg, tool.execute e i = .error msg) :
    useTool env registry st =
      { st with
        messages := st.messages ++ [{ role := "assistant", content := toolApology }]
        current_node := "finalize" } ∧
    (env.dbAvailable = false → ∀ db,
      (stepNode env registry (useTool env registry st, db)).1.current_node = "END" ∧
      (stepNode env registry (useTool env registry st, db)).1.messages =
        st.messages ++ [{ role := "assistant", content := toolApology }] ∧
      (stepNode env registry (useTool env registry st, db)).2 = db) := by
  have huse : useTool env registry st =
      { st with
        messages := st.messages ++ [{ role := "assistant", content := toolApology }]
        current_node := "finalize" } := by
    obtain ⟨msg, hmsg⟩ := hthrow env (st.context.tool_input.getD .empty)
    simp only [useTool, hsel, Option.getD_some, hfind, hmsg]
  refine ⟨huse, fun hdeg db => ?_⟩
  rw [huse]
  simp [stepNode, finalizeResponse, memSaveAgentState, hdeg]

/-- Witness for C8 with a concrete always-throwing tool. -/
theorem throwing_tool_contained_witness :
    useTool ⟨true, false, .ok none, "", 0, 0⟩
        [⟨"boom", fun _ _ => .error "boom"⟩]
        { messages := [{ role := "user", content := "x" }]
          session_id := "s1"
          context := { user_id := "u1", selected_tool := some "boom" }
          current_node := "use_tool" } =
      { messages := [{ role := "user", content := "x" },
                     { role := "assistant", content := toolApology }]
        session_id := "s1"
        context := { user_id := "u1", selected_tool := some "boom" }
        current_node := "finalize" } := by
  have h := (throwing_tool_contained ⟨true, false, .ok none, "", 0, 0⟩
    [⟨"boom", fun _ _ => .error "boom"⟩]
    { messages := [{ role := "user", content := "x" }]
      session_id := "s1"
      context := { user_id := "u1", selected_tool := some "boom" }
      current_node := "use_tool" }
    ⟨"boom", fun _ _ => .error "boom"⟩ "boom"
    rfl (by rfl) (fun e i => ⟨"boom", rfl⟩)).1
  simpa using h

/-- C9 counterexample: the claim as stated is false for the empty string.
`COALESCE(EXCLUDED.profile_name, users.profile_name)` keeps the stored name
only when the parameter reaches the driver as SQL `NULL` (absent/undefined);
the empty string is not `NULL`, so upserting `''` for a user whose stored
profile name is `"Alice"` overwrites it with `''`. -/
theorem upsertUser_empty_string_overwrites :
    ((upsertUser ⟨true, true, .ok none, "", 0, 0⟩
        { users := [⟨"u1", "573001", "573001", some "Alice"⟩] }
        "573001" "573001" (some "")).toOption.map
      (fun p => p.2.users.map UserRow.profile_name)) = some [some ""] ∧
    some [some ""] ≠ some [some "Alice"] := by
  constructor
  · rfl
  · decide

/-- Updating the matched user in place preserves `find?` up to the update. -/
theorem find?_map_update (waId : String) (u2 : UserRow)
    (hu2 : (u2.wa_id == waId) = true) :
    ∀ (l : List UserRow) (u : UserRow),
      l.find? (fun v => v.wa_id == waId) = some u →
      (l.map (fun v => if v.wa_id == waId then u2 else v)).find?
        (fun v => v.wa_id == waId) = some u2 := by
  intro l
  induction l with
  | nil => intro u h; simp [List.find?] at h
  | cons a t ih =>
    intro u h
    by_cases ha : (a.wa_id == waId) = true
    · rw [List.map_cons, List.find?_cons_of_pos _ (by simp [ha, hu2])]
      congr 1
      simp [ha]
    · rw [List.find?_cons_of_neg _ (by simp [ha])] at h
      rw [List.map_cons, List.find?_cons_of_neg _ (by simp [ha])]
      exact ih u h

/-- C9 amended: an upsert whose profile-name argument is absent (`undefined`,
reaching SQL as `NULL`) leaves the stored profile name of an existing user
unchanged; only the empty-string argument (not `NULL` in SQL) overwrites,
per the counterexample. -/
theorem upsertUser_absent_preserves_name (env : Env) (db : Db)
    (waId phone : String) (u : UserRow) (n : String)
    (hconn : env.dbConn = true)
    (hfind : db.users.find? (fun v => v.wa_id == waId) = some u)
    (hname : u.profile_name = some n) (_hne : n ≠ "") :
    ∃ db2, upsertUser env db waId phone none = .ok ({ u with phone_number := phone }, db2) ∧
      db2.users.find? (fun v => v.wa_id == waId) =
        some { u with phone_number := phone } ∧
      ({ u with phone_number := phone } : UserRow).profile_name = some n := by
  have hwa : (u.wa_id == waId) = true := by simpa using List.find?_some hfind
  have h1 : upsertUser env db waId phone none =
      .ok ({ u with phone_number := phone },
        { db with users := db.users.map (fun v =>
            if v.wa_id == waId then { u with phone_number := phone } else v) }) := by
    simp only [upsertUser, hconn, Bool.not_true, Bool.false_eq_true, if_false, hfind]
    rfl
  exact ⟨_, h1, find?_map_update waId { u with phone_number := phone } hwa db.users u hfind,
    hname⟩

/-- Witness for the amended C9 at a concrete database. -/
theorem upsertUser_absent_preserves_name_witness :
    ∃ db2, upsertUser ⟨true, true, .ok none, "", 0, 0⟩
        { users := [⟨"u1", "573001", "573001", some "Alice"⟩] }
        "573001" "573002" none =
      .ok (⟨"u1", "573001", "573002", some "Alice"⟩, db2) ∧
      db2.users.find? (fun v => v.wa_id == "573001") =
        some ⟨"u1", "573001", "573002", some "Alice"⟩ ∧
      (⟨"u1", "573001", "573002", some "Alice"⟩ : UserRow).profile_name = some "Alice" :=
  upsertUser_absent_preserves_name ⟨true, true, .ok none, "", 0, 0⟩
    { users := [⟨"u1", "573001", "573001", some "Alice"⟩] }
    "573001" "573002" ⟨"u1", "573001", "573001", some "Alice"⟩ "Alice"
    rfl (by decide) rfl (by decide)

/-- C1: delivering the same provider message id twice through
`AgentMemory.saveMessage` leaves exactly one stored row for that id: the
first insert succeeds, the second violates the `UNIQUE (whatsapp_message_id)`
constraint and is rethrown by the repository without storing anything, and
the turn-level wrapper around the write (`swallowSave`, the `try/catch` of
`processTextMessage`) absorbs that violation as a benign duplicate — the
flow continues with the database unchanged and no error surfaces further. -/
theorem duplicate_provider_id_idempotent (env : Env) (db : Db)
    (cid content w : String)
    (hconn : env.dbConn = true) (hav : env.dbAvailable = true)
    (hcid : cid ≠ "") (hcontent : content ≠ "")
    (hconv : db.conversations.any (fun c => c.id == cid) = true)
    (hfresh : db.messages.any (fun m => m.whatsapp_message_id == some w) = false) :
    ∃ mid db1,
      memSaveMessage env db cid "incoming" "text" content (some w) = .ok (mid, db1) ∧
      countWaMsg db1 w = 1 ∧
      (∃ e, memSaveMessage env db1 cid "incoming" "text" content (some w) = .error e) ∧
      swallowSave (memSaveMessage env db1 cid "incoming" "text" content (some w)) db1 = db1 := by
  have hcid2 : (cid == "") = false := beq_eq_false_iff_ne.mpr hcid
  have hcontent2 : (content == "") = false := beq_eq_false_iff_ne.mpr hcontent
  have hnomem : ∀ x ∈ db.messages, ¬ x.whatsapp_message_id = some w := by
    intro x hx hxw
    have hany : (db.messages.any fun m => m.whatsapp_message_id == some w) = true :=
      List.any_eq_true.mpr ⟨x, hx, by simpa using hxw⟩
    rw [hfresh] at hany
    cases hany
  have hfilter : db.messages.filter (fun m => m.whatsapp_message_id == some w) = [] := by
    rw [List.filter_eq_nil_iff]
    intro m hm hpm
    exact hnomem m hm (by simpa using hpm)
  have h1 : memSaveMessage env db cid "incoming" "text" content (some w) =
      .ok (("row_" ++ toString db.nextId),
        { db with
          messages := db.messages ++
            [{ id := "row_" ++ toString db.nextId, conversation_id := cid
               direction := "incoming", message_type := "text", content := content
               whatsapp_message_id := some w }]
          nextId := db.nextId + 1
          conversations := db.conversations.map (fun c =>
            if c.id == cid then { c with updated_at := db.clock } else c)
          clock := db.clock + 1 }) := by
    simp only [memSaveMessage, hav, Bool.not_true, Bool.false_eq_true, if_false,
      saveMessageRepo, hcid2, hcontent2, hconn, hconv, hfresh,
      updateConversationTimestamp, Db.freshId]
    simp
    exact hnomem
  have hconv1 : ∃ x ∈ db.conversations,
      ((if x.id = cid then { x with updated_at := db.clock } else x).id = cid) := by
    obtain ⟨x, hx, hxid⟩ := List.any_eq_true.mp hconv
    have hxe : x.id = cid := by simpa using hxid
    exact ⟨x, hx, by simp [hxe]⟩
  have herr : memSaveMessage env
      { db with
        messages := db.messages ++
          [{ id := "row_" ++ toString db.nextId, conversation_id := cid
             direction := "incoming", message_type := "text", content := content
             whatsapp_message_id := some w }]
        nextId := db.nextId + 1
        conversations := db.conversations.map (fun c =>
          if c.id == cid then { c with updated_at := db.clock } else c)
        clock := db.clock + 1 }
      cid "incoming" "text" content (some w) =
      .error "duplicate key value violates unique constraint" := by
    simp only [memSaveMessage, hav, Bool.not_true, Bool.false_eq_true, if_false,
      saveMessageRepo, hcid2, hcontent2, hconn]
    have hdup : (List.any (db.messages ++
        [{ id := "row_" ++ toString db.nextId, conversation_id := cid
           direction := "incoming", message_type := "text", content := content
           whatsapp_message_id := some w }])
        (fun m => m.whatsapp_message_id == some w)) = true := by
      simp
    simp [hdup, List.any_map]
    exact hconv1
  refine ⟨_, _, h1, ?_, ⟨_, herr⟩, by rw [herr]; rfl⟩
  unfold countWaMsg
  simp [List.filter_append, hfilter]

/-- Witness for C1 at a concrete database. -/
theorem duplicate_provider_id_idempotent_witness :
    ∃ mid db1,
      memSaveMessage ⟨true, true, .ok none, "", 0, 0⟩
        { conversations := [⟨"c1", "u1", none, 0⟩] }
        "c1" "incoming" "text" "hola" (some "wamid.1") = .ok (mid, db1) ∧
      countWaMsg db1 "wamid.1" = 1 ∧
      (∃ e, memSaveMessage ⟨true, true, .ok none, "", 0, 0⟩ db1
        "c1" "incoming" "text" "hola" (some "wamid.1") = .error e) ∧
      swallowSave (memSaveMessage ⟨true, true, .ok none, "", 0, 0⟩ db1
        "c1" "incoming" "text" "hola" (some "wamid.1")) db1 = db1 :=
  duplicate_provider_id_idempotent ⟨true, true, .ok none, "", 0, 0⟩
    { conversations := [⟨"c1", "u1", none, 0⟩] }
    "c1" "hola" "wamid.1" rfl rfl (by decide) (by decide) (by decide) (by decide)

/-- With the store available and reachable, a valid state for an existing
user is persisted: `AgentMemory.saveAgentState` succeeds and the resulting
`sessions` table holds a row for the user carrying exactly that state (the
`ON CONFLICT (user_id)` upsert updates in place or inserts). -/
theorem memSaveAgentState_available_ok (env : Env) (db : Db) (uid : String) (st : AgentState)
    (hav : env.dbAvailable = true) (hconn : env.dbConn = true)
    (hvalid : agentStateInvalid uid st = false)
    (huser : (db.users.any fun u => u.id == uid) = true) :
    ∃ db2, memSaveAgentState env db uid st = .ok ((), db2) ∧
      ∃ s ∈ db2.sessions, s.user_id = uid ∧ s.agent_state = st := by
  cases hfind : db.sessions.find? (fun s => s.user_id == uid) with
  | none =>
    refine ⟨{ db with
        sessions := db.sessions ++
          [{ id := "row_" ++ toString db.nextId, user_id := uid, agent_state := st }]
        nextId := db.nextId + 1 }, ?_, ?_⟩
    · simp only [memSaveAgentState, hav, Bool.not_true, Bool.false_eq_true, if_false,
        saveAgentStateRepo, hvalid, hconn, huser, hfind, Db.freshId]
    · exact ⟨{ id := "row_" ++ toString db.nextId, user_id := uid, agent_state := st },
        by simp, rfl, rfl⟩
  | some s0 =>
    have hp : (s0.user_id == uid) = true := by simpa using List.find?_some hfind
    have hmem : s0 ∈ db.sessions := List.mem_of_find?_eq_some hfind
    refine ⟨{ db with
        sessions := db.sessions.map (fun t =>
          if t.user_id == uid then { t with agent_state := st } else t) }, ?_, ?_⟩
    · simp only [memSaveAgentState, hav, Bool.not_true, Bool.false_eq_true, if_false,
        saveAgentStateRepo, hvalid, hconn, huser, hfind]
    · refine ⟨{ s0 with agent_state := st }, ?_, by simpa using hp, rfl⟩
      have hmm := List.mem_map_of_mem (fun t =>
        if t.user_id == uid then { t with agent_state := st } else t) hmem
      simpa [hp] using hmm

set_option maxHeartbeats 4000000

/-- C7: on input `"calcula 2+2*3"`, the `analyze` node selects the calculator
tool; the tool's turn (the appended assistant message) carries the result `8`
computed with standard precedence (`2+2*3 = 8`); and the run finalizes: the
machine ends in the terminal `END` state and the final conversation is
persisted as the user's session row. -/
theorem calculator_scenario (env : Env) (db : Db) (uid sid : String)
    (hconn : env.dbConn = true) (hav : env.dbAvailable = true)
    (huid : jsTrim uid ≠ "") (hsid : jsTrim sid ≠ "")
    (huser : (db.users.any fun u => u.id == uid) = true) :
    (analyzeIntent (processInput (calcSt0 sid uid))).context.selected_tool
      = some "calculator" ∧
    (runGraph 6 env AVAILABLE_TOOLS (calcSt0 sid uid, db)).1.current_node = "END" ∧
    (runGraph 6 env AVAILABLE_TOOLS (calcSt0 sid uid, db)).1.messages.getLast?
      = some { role := "assistant", content := "El resultado de 2+2*3 es: 8" } ∧
    jsIncludes "El resultado de 2+2*3 es: 8" "8" = true ∧
    ∃ s ∈ (runGraph 6 env AVAILABLE_TOOLS (calcSt0 sid uid, db)).2.sessions,
      s.user_id = uid ∧
      s.agent_state.messages =
        (runGraph 6 env AVAILABLE_TOOLS (calcSt0 sid uid, db)).1.messages := by
  have hvalid : agentStateInvalid uid (calcSt3 sid uid) = false := by
    simp [agentStateInvalid, calcSt3, beq_eq_false_iff_ne, huid, hsid]
  obtain ⟨db2, hsave, s, hsmem, hsuid, hsstate⟩ :=
    memSaveAgentState_available_ok env db uid (calcSt3 sid uid) hav hconn hvalid huser
  have a1 : analyzeIntent (processInput (calcSt0 sid uid)) = calcSt2 sid uid := rfl
  have estep : runGraph 6 env AVAILABLE_TOOLS (calcSt0 sid uid, db) =
      runGraph 2 env AVAILABLE_TOOLS (finalizeResponse env db (calcSt3 sid uid)) := rfl
  have hctx : (calcSt3 sid uid).context.user_id = uid := rfl
  have sfin : finalizeResponse env db (calcSt3 sid uid) = (calcStEnd sid uid, db2) := by
    unfold finalizeResponse
    rw [hctx, hsave]
    rfl
  have e2 : runGraph 2 env AVAILABLE_TOOLS (calcStEnd sid uid, db2) =
      (calcStEnd sid uid, db2) := rfl
  have hrun : runGraph 6 env AVAILABLE_TOOLS (calcSt0 sid uid, db) =
      (calcStEnd sid uid, db2) := by
    rw [estep, sfin, e2]
  refine ⟨by rw [a1]; rfl, by rw [hrun]; rfl, by rw [hrun]; rfl, by decide, ?_⟩
  rw [hrun]
  exact ⟨s, hsmem, hsuid, by rw [hsstate]; rfl⟩

set_option maxHeartbeats 200000

/-- Witness for C7 at a concrete environment and database. -/
theorem calculator_scenario_witness :
    (analyzeIntent (processInput (calcSt0 "s1" "u1"))).context.selected_tool
      = some "calculator" ∧
    (runGraph 6 ⟨true, true, .ok none, "", 0, 0⟩ AVAILABLE_TOOLS
        (calcSt0 "s1" "u1", { users := [⟨"u1", "w1", "w1", none⟩] })).1.current_node = "END" ∧
    (runGraph 6 ⟨true, true, .ok none, "", 0, 0⟩ AVAILABLE_TOOLS
        (calcSt0 "s1" "u1", { users := [⟨"u1", "w1", "w1", none⟩] })).1.messages.getLast?
      = some { role := "assistant", content := "El resultado de 2+2*3 es: 8" } ∧
    jsIncludes "El resultado de 2+2*3 es: 8" "8" = true ∧
    ∃ s ∈ (runGraph 6 ⟨true, true, .ok none, "", 0, 0⟩ AVAILABLE_TOOLS
        (calcSt0 "s1" "u1", { users := [⟨"u1", "w1", "w1", none⟩] })).2.sessions,
      s.user_id = "u1" ∧
      s.agent_state.messages =
        (runGraph 6 ⟨true, true, .ok none, "", 0, 0⟩ AVAILABLE_TOOLS
          (calcSt0 "s1" "u1", { users := [⟨"u1", "w1", "w1", none⟩] })).1.messages :=
  calculator_scenario ⟨true, true, .ok none, "", 0, 0⟩
    { users := [⟨"u1", "w1", "w1", none⟩] } "u1" "s1"
    rfl rfl (by decide) (by decide) (by decide)

/-- The head of a matched substring is a member of the haystack. -/
theorem listContains_head_mem {c : Char} {n h : List Char}
    (hc : listContains (c :: n) h = true) : c ∈ h := by
  induction h with
  | nil => simp [listContains, List.isEmpty] at hc
  | cons a t ih =>
    rw [listContains] at hc
    have hc2 : (c :: n).isPrefixOf (a :: t) = true ∨ listContains (c :: n) t = true := by
      simpa using hc
    rcases hc2 with h1 | h2
    · have : c = a := by
        simpa [List.isPrefixOf] using And.left (by simpa [List.isPrefixOf] using h1)
      exact this ▸ List.mem_cons_self a t
    · exact List.mem_cons_of_mem _ (ih h2)

/-- Helper: `dropWhile` keeps a witness that fails the predicate. -/
theorem exists_mem_dropWhile {α} (p : α → Bool) :
    ∀ l : List α, (∃ c ∈ l, p c = false) → ∃ c ∈ l.dropWhile p, p c = false := by
  intro l
  induction l with
  | nil => simp
  | cons a t ih =>
    rintro ⟨c, hc, hpc⟩
    by_cases hpa : p a = true
    · rw [List.dropWhile_cons, if_pos hpa]
      rcases List.mem_cons.mp hc with rfl | hct
      · rw [hpa] at hpc; cases hpc
      · exact ih ⟨c, hct, hpc⟩
    · rw [List.dropWhile_cons, if_neg hpa]
      exact ⟨c, hc, hpc⟩

/-- A string containing a non-whitespace character does not trim to empty. -/
theorem jsTrim_ne_empty {s : String} (h : ∃ c ∈ s.data, jsIsSpace c = false) :
    jsTrim s ≠ "" := by
  obtain ⟨c1, hc1, hpc1⟩ := exists_mem_dropWhile jsIsSpace s.data h
  obtain ⟨c2, hc2, -⟩ := exists_mem_dropWhile jsIsSpace
    (s.data.dropWhile jsIsSpace).reverse ⟨c1, List.mem_reverse.mpr hc1, hpc1⟩
  intro hEq
  have hdata : jsTrimList s.data = [] := by
    have := congrArg String.data hEq
    simpa [jsTrim] using this
  rw [jsTrimList, List.reverse_eq_nil_iff] at hdata
  rw [hdata] at hc2
  exact absurd hc2 (List.not_mem_nil c2)

/-- A message whose lowercase form contains `"ping"` has a non-whitespace
character. -/
theorem ping_nonspace {s : String} (h : jsIncludes (jsToLower s) "ping" = true) :
    ∃ c ∈ s.data, jsIsSpace c = false := by
  have hdata : (jsToLower s).data = s.data.map jsCharLower := rfl
  have hp : 'p' ∈ s.data.map jsCharLower := by
    rw [← hdata]
    exact listContains_head_mem (by simpa [jsIncludes] using h)
  obtain ⟨c, hc, hcl⟩ := List.mem_map.mp hp
  refine ⟨c, hc, ?_⟩
  by_contra hsp
  have hsp2 : jsIsSpace c = true := by
    cases hx : jsIsSpace c
    · exact absurd hx hsp
    · rfl
  have hd : ((c = ' ' ∨ c = '\t') ∨ c = '\n') ∨ c = '\r' := by
    simpa [jsIsSpace] using hsp2
  rcases hd with ((rfl | rfl) | rfl) | rfl <;> exact absurd hcl (by decide)

/-- The `if (!response)` guard of `processTextMessage` makes the returned
response non-empty in every case. -/
theorem guardedResponse_ne (x : String) :
    (if x == "" then "No te entiendo. ¿Puedes intentar de nuevo?" else x) ≠ "" := by
  by_cases hc : x = ""
  · rw [if_pos (by simp [hc])]; decide
  · rw [if_neg (by simp [hc])]; exact hc

/-- A turn's response is never empty. -/
theorem runTurn_fst_ne (env : Env) (db5 : Db) (userId : String) (st1 : AgentState)
    (content : String) (waMessageId : Option String) :
    (runTurn env db5 userId st1 content waMessageId).1 ≠ "" :=
  guardedResponse_ne (processMessageWithLogic env st1 content)

/-- Whenever the body of `processTextMessage` completes without throwing, the
returned response text is non-empty. -/
theorem processTextMessageCore_ok_ne (env : Env) (db : Db) (a b : String)
    (c d : Option String) (r : String) (db2 : Db)
    (h : processTextMessageCore env db a b c d = .ok (r, db2)) : r ≠ "" := by
  unfold processTextMessageCore at h
  by_cases h1 : (jsTrim a == "") = true
  · simp [h1] at h
  · simp only [h1, if_false, Bool.false_eq_true] at h
    by_cases h2 : (jsTrim b == "") = true
    · simp [h2] at h
    · simp only [h2, if_false, Bool.false_eq_true] at h
      cases hru : resolveUser env db a d with
      | error e => simp [hru] at h
      | ok p =>
        obtain ⟨user, dbA⟩ := p
        simp only [hru] at h
        cases hrs : resolveState env dbA user.id with
        | error e => simp [hrs] at h
        | ok q =>
          obtain ⟨st0, db5⟩ := q
          simp only [hrs] at h
          by_cases hp : jsIncludes (jsToLower b) "ping" = true
          · simp only [hp, if_true] at h
            simp only [Except.ok.injEq, Prod.mk.injEq] at h
            obtain ⟨hr, -⟩ := h
            subst hr
            decide
          · rw [if_neg hp] at h
            simp only [Except.ok.injEq] at h
            have hr : (runTurn env db5 user.id (addMessageToState st0 "user" b) b c).1 = r := by
              rw [h]
            rw [← hr]
            exact runTurn_fst_ne env db5 user.id (addMessageToState st0 "user" b) b c

/-- With the database reachable, the user-resolution phase succeeds: an
existing row is returned as is, a new user is inserted on first contact; the
messages, sessions and conversations tables are untouched and the resolved
user exists in the resulting `users` table. -/
theorem resolveUser_ok (env : Env) (db : Db) (waId : String) (profileName : Option String)
    (hconn : env.dbConn = true) :
    ∃ user dbA, resolveUser env db waId profileName = .ok (user, dbA) ∧
      dbA.sessions = db.sessions ∧ dbA.messages = db.messages ∧
      dbA.conversations = db.conversations ∧
      (dbA.users.any fun v => v.id == user.id) = true := by
  unfold resolveUser
  simp only [getUserByWaId, hconn, Bool.not_true, Bool.false_eq_true, if_false]
  cases hf : db.users.find? (fun u => u.wa_id == waId) with
  | some u =>
    refine ⟨u, db, by simp, rfl, rfl, rfl, ?_⟩
    exact List.any_eq_true.mpr ⟨u, List.mem_of_find?_eq_some hf, by simp⟩
  | none =>
    refine ⟨⟨"row_" ++ toString db.nextId, waId, waId, profileName⟩,
      { db with
        users := db.users ++ [⟨"row_" ++ toString db.nextId, waId, waId, profileName⟩]
        nextId := db.nextId + 1 }, ?_, rfl, rfl, rfl, ?_⟩
    · simp only [upsertUser, hconn, Bool.not_true, Bool.false_eq_true, if_false, hf, Db.freshId]
    · exact List.any_eq_true.mpr
        ⟨⟨"row_" ++ toString db.nextId, waId, waId, profileName⟩, by simp, by simp⟩

/-- With the database reachable and the user present, the state-resolution
phase succeeds and leaves the sessions and messages tables untouched (in
degraded mode it touches nothing at all). -/
theorem resolveState_ok (env : Env) (db : Db) (userId : String)
    (hconn : env.dbConn = true)
    (huser : (db.users.any fun v => v.id == userId) = true) :
    ∃ st0 db5, resolveState env db userId = .ok (st0, db5) ∧
      db5.sessions = db.sessions ∧ db5.messages = db.messages := by
  unfold resolveState
  by_cases hav : env.dbAvailable = true
  · simp only [memLoadAgentState, hav, Bool.not_true, Bool.false_eq_true, if_false,
      getAgentStateRepo, hconn]
    cases hs : db.sessions.find? (fun s => s.user_id == userId
        && (s.expires_at.isNone || s.expires_at.any (fun e => e > env.now))) with
    | some srow => exact ⟨srow.agent_state, db, by simp, rfl, rfl⟩
    | none =>
      simp only [memGetOrCreateConversation, hav, Bool.not_true, Bool.false_eq_true, if_false,
        getOrCreateConversationRepo, mostRecentConversation, hconn]
      cases hm : (db.conversations.filter (fun c => c.user_id == userId)).foldl
          (fun best c =>
            match best with
            | none => some c
            | some b => if c.updated_at > b.updated_at then some c else some b) none with
      | some conv => exact ⟨createInitialAgentState conv.id userId, db, by simp [hm], rfl, rfl⟩
      | none =>
        refine ⟨createInitialAgentState ("row_" ++ toString db.nextId) userId,
          { db with
            conversations := db.conversations ++
              [⟨"row_" ++ toString db.nextId, userId, some "WhatsApp Conversation", db.clock⟩]
            nextId := db.nextId + 1
            clock := db.clock + 1 }, ?_, rfl, rfl⟩
        simp only [Option.map_none', hm, createConversation, hconn, Bool.not_true,
          Bool.false_eq_true, if_false, huser, Db.freshId]
  · have hav2 : env.dbAvailable = false := by
      cases hx : env.dbAvailable
      · rfl
      · exact absurd hx hav
    simp only [memLoadAgentState, memGetOrCreateConversation, hav2]
    exact ⟨createInitialAgentState ("mem_" ++ userId ++ "_" ++ toString env.now) userId,
      db, by simp, rfl, rfl⟩

/-- C10 core: a message containing `ping` makes the body return exactly
`"pong"` before the response pipeline and before any of the three persistence
writes — the sessions and messages tables are unchanged. -/
theorem ping_core (env : Env) (db : Db) (waId content : String)
    (waMessageId profileName : Option String)
    (hconn : env.dbConn = true) (hwa : jsTrim waId ≠ "")
    (hping : jsIncludes (jsToLower content) "ping" = true) :
    ∃ db5, processTextMessageCore env db waId content waMessageId profileName =
        .ok ("pong", db5) ∧
      db5.sessions = db.sessions ∧ db5.messages = db.messages := by
  have hct : jsTrim content ≠ "" := jsTrim_ne_empty (ping_nonspace hping)
  have hwa2 : (jsTrim waId == "") = false := beq_eq_false_iff_ne.mpr hwa
  have hct2 : (jsTrim content == "") = false := beq_eq_false_iff_ne.mpr hct
  obtain ⟨user, dbA, hru, hs1, hm1, -, hany⟩ :=
    resolveUser_ok env db waId profileName hconn
  obtain ⟨st0, db5, hrs, hs2, hm2⟩ := resolveState_ok env dbA user.id hconn hany
  unfold processTextMessageCore
  simp only [hwa2, hct2, Bool.false_eq_true, if_false, hru, hrs, hping, if_true]
  exact ⟨db5, rfl, by rw [hs2, hs1], by rw [hm2, hm1]⟩

/-- C10: an inbound text whose lowercased content contains `"ping"` makes
`processTextMessage` return exactly `"pong"` and return early: the response
pipeline is skipped (the result does not depend on the completion
collaborator or any tool) and neither the updated state nor the incoming or
outgoing message is persisted — the sessions and messages tables are exactly
as before the turn. -/
theorem ping_short_circuit (env : Env) (db : Db) (waId content : String)
    (waMessageId profileName : Option String)
    (hconn : env.dbConn = true) (hwa : jsTrim waId ≠ "")
    (hping : jsIncludes (jsToLower content) "ping" = true) :
    (processTextMessage env db waId content waMessageId profileName).1 = "pong" ∧
    (processTextMessage env db waId content waMessageId profileName).2.sessions = db.sessions ∧
    (processTextMessage env db waId content waMessageId profileName).2.messages = db.messages := by
  obtain ⟨db5, hcore, hs, hm⟩ :=
    ping_core env db waId content waMessageId profileName hconn hwa hping
  unfold processTextMessage
  rw [hcore]
  exact ⟨rfl, hs, hm⟩

/-- Witness for C10 at a concrete turn. -/
theorem ping_short_circuit_witness :
    (processTextMessage ⟨true, true, .ok (some "ai"), "", 0, 0⟩
      { users := [⟨"u1", "w1", "w1", none⟩] } "w1" "Hola PING" none none).1 = "pong" ∧
    (processTextMessage ⟨true, true, .ok (some "ai"), "", 0, 0⟩
      { users := [⟨"u1", "w1", "w1", none⟩] } "w1" "Hola PING" none none).2.sessions =
      ({ users := [⟨"u1", "w1", "w1", none⟩] } : Db).sessions ∧
    (processTextMessage ⟨true, true, .ok (some "ai"), "", 0, 0⟩
      { users := [⟨"u1", "w1", "w1", none⟩] } "w1" "Hola PING" none none).2.messages =
      ({ users := [⟨"u1", "w1", "w1", none⟩] } : Db).messages :=
  ping_short_circuit ⟨true, true, .ok (some "ai"), "", 0, 0⟩
    { users := [⟨"u1", "w1", "w1", none⟩] } "w1" "Hola PING" none none
    rfl (by decide) (by decide)

/-- C2: with the store-availability flag false, for every user id
`loadAgentState` reports absence without touching the database and
`saveAgentState` reports success without writing (both regardless of
connectivity); and a full text-message turn still completes: the total
function `processTextMessage` returns non-empty response text for every
environment, database and input. -/
theorem store_unavailable_degrades (env : Env) (db : Db) (uid : String)
    (st : AgentState) (waId content : String)
    (waMessageId profileName : Option String)
    (hav : env.dbAvailable = false) :
    memLoadAgentState env db uid = .ok (none, db) ∧
    memSaveAgentState env db uid st = .ok ((), db) ∧
    (processTextMessage env db waId content waMessageId profileName).1 ≠ "" := by
  refine ⟨by simp [memLoadAgentState, hav], by simp [memSaveAgentState, hav], ?_⟩
  unfold processTextMessage
  cases hc : processTextMessageCore env db waId content waMessageId profileName with
  | error e =>
    show ("Lo siento, ocurrió un error al procesar tu mensaje." : String) ≠ ""
    decide
  | ok p =>
    obtain ⟨r, db2⟩ := p
    simpa using processTextMessageCore_ok_ne env db waId content waMessageId profileName r db2 hc

/-- Witness for C2 at a concrete degraded environment. -/
theorem store_unavailable_degrades_witness :
    memLoadAgentState ⟨false, false, .error (), "", 0, 0⟩ {} "u1" = .ok (none, {}) ∧
    memSaveAgentState ⟨false, false, .error (), "", 0, 0⟩ {} "u1"
      (createInitialAgentState "s1" "u1") = .ok ((), {}) ∧
    (processTextMessage ⟨false, false, .error (), "", 0, 0⟩ {} "w1" "hola" none none).1 ≠ "" :=
  store_unavailable_degrades ⟨false, false, .error (), "", 0, 0⟩ {} "u1"
    (createInitialAgentState "s1" "u1") "w1" "hola" none none rfl

end BunElisya
